import Mathlib

set_option maxHeartbeats 1000000
set_option maxRecDepth 8000

/-!
Shallow embedding of the GitHub-search agent repository:
the heuristic strategy selectors (`agent.py`, `complexity_examples.py`),
the ReAct iteration control, and the MCP server tool functions
(`MCP/servers/Github_Search/server.py`).
-/

/-! ### Python string primitives used by the source -/

/-- `listStartsWith pat hay` : `pat` is an initial segment of `hay`. -/
def listStartsWith : List Char → List Char → Bool
  | [], _ => true
  | _ :: _, [] => false
  | a :: as, b :: bs => a == b && listStartsWith as bs

/-- `listHasSub pat hay` : `pat` occurs as a contiguous sublist of `hay`. -/
def listHasSub (pat : List Char) : List Char → Bool
  | [] => listStartsWith pat []
  | c :: rest => listStartsWith pat (c :: rest) || listHasSub pat rest

/-- Embeds the Python membership test `pat in hay` on strings
(contiguous substring containment). -/
def strIn (pat hay : String) : Bool :=
  listHasSub pat.toList hay.toList

/-- Embeds Python `str.lower()` (ASCII case folding; the CJK keywords used by
the selectors are unaffected by case folding). -/
def pyLower (s : String) : String :=
  String.mk (s.toList.map Char.toLower)

/-- Splitter for `pySplit`: `acc` is the reversed current word. -/
def pySplitAux (acc : List Char) : List Char → List String
  | [] => if acc.isEmpty then [] else [String.mk acc.reverse]
  | c :: rest =>
    if c.isWhitespace then
      if acc.isEmpty then pySplitAux [] rest
      else String.mk acc.reverse :: pySplitAux [] rest
    else pySplitAux (c :: acc) rest

/-- Embeds Python `str.split()` with no argument: split on whitespace and
drop empty pieces. -/
def pySplit (s : String) : List String :=
  pySplitAux [] s.toList

/-! ### `SearchStrategy` enum (`agent.py`) -/

/-- Embeds the `SearchStrategy` enum of `agent.py`. -/
inductive SearchStrategy where
  | broad_search
  | deep_analysis
  | comparison
  | trend_analysis
  | solution_focused
deriving DecidableEq, BEq

/-- Embeds `SearchStrategySelector.analyze_query_intent` of `agent.py`:
keyword decision table on the lowercased query, then the
`'/' in query or len(query.split()) <= 2` fallback, default broad search. -/
def analyze_query_intent (query : String) : SearchStrategy :=
  let query_lower := pyLower query
  let comparison_keywords := ["比较", "对比", "哪个更好", "vs", "差异", "选择", "推荐"]
  if comparison_keywords.any (fun k => strIn k query_lower) then
    .comparison
  else
    let trend_keywords := ["最新", "热门", "流行", "趋势", "最佳", "2024", "2025", "trending"]
    if trend_keywords.any (fun k => strIn k query_lower) then
      .trend_analysis
    else
      let solution_keywords := ["如何", "怎么", "实现", "解决", "方法", "how to", "solution"]
      if solution_keywords.any (fun k => strIn k query_lower) then
        .solution_focused
      else if strIn "/" query || (pySplit query).length ≤ 2 then
        .deep_analysis
      else
        .broad_search

/-- The decision table exactly as the specification sentence states it
(priority-ordered keyword checks on the lowercased query), written from the
spec's words for comparison with `analyze_query_intent`. -/
def analyzeQueryIntentSpec (query : String) : SearchStrategy :=
  let q := pyLower query
  if strIn "比较" q || strIn "对比" q || strIn "哪个更好" q || strIn "vs" q ||
      strIn "差异" q || strIn "选择" q || strIn "推荐" q then
    .comparison
  else if strIn "最新" q || strIn "热门" q || strIn "流行" q || strIn "趋势" q ||
      strIn "最佳" q || strIn "2024" q || strIn "2025" q || strIn "trending" q then
    .trend_analysis
  else if strIn "如何" q || strIn "怎么" q || strIn "实现" q || strIn "解决" q ||
      strIn "方法" q || strIn "how to" q || strIn "solution" q then
    .solution_focused
  else if strIn "/" query || (pySplit query).length ≤ 2 then
    .deep_analysis
  else
    .broad_search

example : analyze_query_intent "django vs flask" = .comparison := by decide
example : analyze_query_intent "最新 web framework tools" = .trend_analysis := by decide
example : analyze_query_intent "how to build a compiler" = .solution_focused := by decide
example : analyze_query_intent "owner/repo" = .deep_analysis := by decide
example : analyze_query_intent "machine learning" = .deep_analysis := by decide
example : analyze_query_intent "fast json parsing library rust" = .broad_search := by decide

/-- C1: `analyze_query_intent` agrees with the spec's decision table on
every query. -/
theorem c1_analyze_query_intent_matches_spec (query : String) :
    analyze_query_intent query = analyzeQueryIntentSpec query := by
  simp [analyze_query_intent, analyzeQueryIntentSpec, List.any_cons, List.any_nil, or_assoc]

/-! ### Complexity demo (`complexity_examples.py`) -/

/-- Embeds the `AgentMode` enum of `complexity_examples.py`. -/
inductive AgentMode where
  | plan_execute
  | react
deriving DecidableEq, BEq

/-- Embeds the `features` dict built by `analyze_query_complexity_demo`. -/
structure ComplexityFeatures where
  is_comparison : Bool
  is_multi_step : Bool
  is_complex_analysis : Bool
  is_simple_search : Bool
  has_specific_requirements : Bool
  word_count : Nat
  complexity_keywords : Nat
deriving DecidableEq

/-- Embeds the dict returned by `analyze_query_complexity_demo`. -/
structure ComplexityAnalysis where
  complexity_score : Nat
  features : ComplexityFeatures
  analysis_log : List String
deriving DecidableEq

/-- The source's `comparison_keywords` check of `analyze_query_complexity_demo`
(the list is inlined in the Python function; factored here as a named helper). -/
def demoIsComparison (query_lower : String) : Bool :=
  ["vs", "对比", "比较", "哪个更好", "差异", "选择", "推荐"].any (fun k => strIn k query_lower)

/-- The source's `multi_step_keywords` check of `analyze_query_complexity_demo`. -/
def demoIsMultiStep (query_lower : String) : Bool :=
  ["分析", "研究", "深入", "详细", "全面", "系统性"].any (fun k => strIn k query_lower)

/-- The source's `complex_count` of `analyze_query_complexity_demo`:
how many `complex_keywords` occur in the lowercased query. -/
def demoComplexCount (query_lower : String) : Nat :=
  (["架构", "设计模式", "技术栈", "最佳实践", "性能对比", "技术选型"].filter
    (fun k => strIn k query_lower)).length

/-- The source's `requirement_keywords` check of `analyze_query_complexity_demo`. -/
def demoHasRequirements (query_lower : String) : Bool :=
  ["如何", "怎么", "实现", "解决", "方案", "教程"].any (fun k => strIn k query_lower)

/-- Embeds `analyze_query_complexity_demo` of `complexity_examples.py`:
keyword scoring in source order (comparison +3, multi-step +2, each complex
keyword +2, requirements +1, simple-search flag, long-query +1). -/
def analyze_query_complexity_demo (query : String) : ComplexityAnalysis :=
  let query_lower := pyLower query
  let word_count := (pySplit query).length
  let is_comparison := demoIsComparison query_lower
  let score1 := if is_comparison then 3 else 0
  let log1 : List String := if is_comparison then ["✅ 检测到对比分析需求 (+3分)"] else []
  let is_multi_step := demoIsMultiStep query_lower
  let score2 := score1 + (if is_multi_step then 2 else 0)
  let log2 : List String := if is_multi_step then ["✅ 检测到多步骤分析需求 (+2分)"] else []
  let complex_count := demoComplexCount query_lower
  let is_complex_analysis := decide (complex_count > 0)
  let complexity_keywords := if complex_count > 0 then complex_count else 0
  let score3 := score2 + (if complex_count > 0 then complex_count * 2 else 0)
  let doubled := complex_count * 2
  let log3 : List String :=
    if complex_count > 0 then [s!"✅ 检测到{complex_count}个复杂技术关键词 (+{doubled}分)"] else []
  let has_specific_requirements := demoHasRequirements query_lower
  let score4 := score3 + (if has_specific_requirements then 1 else 0)
  let log4 : List String := if has_specific_requirements then ["✅ 检测到特定需求表达 (+1分)"] else []
  let is_simple_search := decide (word_count ≤ 3) && decide (score4 = 0)
  let log5 : List String := if is_simple_search then ["✅ 识别为简单搜索查询"] else []
  let score5 := score4 + (if word_count > 8 then 1 else 0)
  let log6 : List String := if word_count > 8 then [s!"✅ 查询较长({word_count}词) (+1分)"] else []
  { complexity_score := score5
    features :=
      { is_comparison := is_comparison
        is_multi_step := is_multi_step
        is_complex_analysis := is_complex_analysis
        is_simple_search := is_simple_search
        has_specific_requirements := has_specific_requirements
        word_count := word_count
        complexity_keywords := complexity_keywords }
    analysis_log := log1 ++ log2 ++ log3 ++ log4 ++ log5 ++ log6 }

/-- Embeds the dict returned by `decide_agent_mode_demo`. -/
structure ModeDecision where
  query : String
  analysis : ComplexityAnalysis
  selected_mode : AgentMode
  decision_reasons : List String
deriving DecidableEq

/-- Embeds `decide_agent_mode_demo` of `complexity_examples.py`:
the if/elif chain selecting `plan_execute` or `react`. -/
def decide_agent_mode_demo (query : String) : ModeDecision :=
  let analysis := analyze_query_complexity_demo query
  let complexity_score := analysis.complexity_score
  let features := analysis.features
  let ck := features.complexity_keywords
  let wc := features.word_count
  if complexity_score ≥ 4 then
    { query := query, analysis := analysis, selected_mode := .plan_execute
      decision_reasons := [s!"🎯 高复杂度查询 (分数: {complexity_score} ≥ 4)"] }
  else if features.is_comparison && features.is_multi_step then
    { query := query, analysis := analysis, selected_mode := .plan_execute
      decision_reasons := ["🎯 需要对比分析 + 多步骤处理"] }
  else if features.is_complex_analysis && decide (ck ≥ 2) then
    { query := query, analysis := analysis, selected_mode := .plan_execute
      decision_reasons := [s!"🎯 复杂技术分析 ({ck}个关键词)"] }
  else if wc > 10 then
    { query := query, analysis := analysis, selected_mode := .plan_execute
      decision_reasons := [s!"🎯 查询描述复杂 ({wc}词 > 10)"] }
  else if features.is_simple_search || decide (complexity_score ≤ 1) then
    { query := query, analysis := analysis, selected_mode := .react
      decision_reasons := ["⚡ 简单搜索，ReAct更高效"] }
  else
    { query := query, analysis := analysis, selected_mode := .plan_execute
      decision_reasons := ["🛡️ 默认选择Plan and Execute (更稳定)"] }

/-- Complexity score exactly as the specification sentence states it
(sum of keyword bonuses), written from the spec's words. -/
def complexityScoreSpec (query : String) : Nat :=
  let q := pyLower query
  (if demoIsComparison q then 3 else 0) +
  (if demoIsMultiStep q then 2 else 0) +
  demoComplexCount q * 2 +
  (if demoHasRequirements q then 1 else 0) +
  (if (pySplit query).length > 8 then 1 else 0)

/-- Mode decision table exactly as the specification sentence states it,
written from the spec's words for comparison with `decide_agent_mode_demo`. -/
def decideModeSpec (query : String) : AgentMode :=
  let q := pyLower query
  let score := complexityScoreSpec query
  let wc := (pySplit query).length
  if score ≥ 4 ∨ (demoIsComparison q ∧ demoIsMultiStep q) ∨
      demoComplexCount q ≥ 2 ∨ wc > 10 then
    .plan_execute
  else if (wc ≤ 3 ∧ score = 0) ∨ score ≤ 1 then
    .react
  else
    .plan_execute

example : (decide_agent_mode_demo "JWT认证").selected_mode = .react := by decide
example : (decide_agent_mode_demo "django vs flask 性能对比 分析").selected_mode = .plan_execute := by
  decide

/-- The demo's final complexity score equals the spec's sum-of-bonuses score. -/
theorem analyze_query_complexity_demo_score (query : String) :
    (analyze_query_complexity_demo query).complexity_score = complexityScoreSpec query := by
  simp only [analyze_query_complexity_demo, complexityScoreSpec]
  rcases Nat.eq_zero_or_pos (demoComplexCount (pyLower query)) with h | h <;> simp [h]

/-- C8: `decide_agent_mode_demo` selects exactly the mode given by the
spec's keyword-set → score → mode decision table, on every query. -/
theorem c8_decide_agent_mode_matches_spec (query : String) :
    (decide_agent_mode_demo query).selected_mode = decideModeSpec query := by
  simp only [decide_agent_mode_demo, decideModeSpec, analyze_query_complexity_demo,
    complexityScoreSpec, apply_ite ModeDecision.selected_mode]
  split_ifs <;> first
    | rfl
    | omega
    | (simp_all; try omega)

/-! ### ReAct iteration control (`agent.py`, `ReActGitHubAgent`) -/

/-- Embeds the control-relevant fields of the `ReActState` dataclass:
`detailed_analysis` is a dict in the source and is embedded by its key list
(the control logic only reads lengths and membership). Prompt-only fields
(`current_thought`, `planned_actions`, `search_history`) are not read by the
iteration-control logic and are omitted. -/
structure ReActState where
  user_query : String
  repositories_found : List String
  detailed_analysis : List String
  current_strategy : SearchStrategy
  iteration_count : Nat
  max_iterations : Nat
deriving DecidableEq

/-- Embeds the suggestion dict returned by
`SearchStrategySelector.get_next_action_suggestion` (keys that are absent in
a given branch of the source are `none`). -/
structure ActionSuggestion where
  priority : String
  reason : String
  suggested_query : Option String
  target_repo : Option String
deriving DecidableEq

/-- Embeds `SearchStrategySelector.should_switch_strategy` of `agent.py`. -/
def should_switch_strategy (current_strategy : SearchStrategy) (state : ReActState) :
    Option SearchStrategy :=
  let iteration := state.iteration_count
  let found_repos := state.repositories_found.length
  let analyzed_repos := state.detailed_analysis.length
  if current_strategy = .broad_search ∧ iteration ≥ 2 ∧ found_repos < 3 then
    some .solution_focused
  else if found_repos ≥ 5 ∧ analyzed_repos < 2 ∧ current_strategy ≠ .deep_analysis then
    some .deep_analysis
  else if current_strategy = .comparison ∧ iteration ≥ 2 ∧ found_repos < 3 then
    some .broad_search
  else
    none

/-- Embeds `SearchStrategySelector.get_next_action_suggestion` of `agent.py`.
The source indexes `state.repositories_found[analyzed_repos]`; every branch
doing so is guarded so the index is in range, and the embedding uses `getD`
with a default that is never reached under those guards. -/
def get_next_action_suggestion (strategy : SearchStrategy) (state : ReActState) :
    ActionSuggestion :=
  let found_repos := state.repositories_found.length
  let analyzed_repos := state.detailed_analysis.length
  let conclude : ActionSuggestion := ⟨"conclude", "已收集足够信息，可以总结", none, none⟩
  match strategy with
  | .broad_search =>
    if found_repos = 0 then
      ⟨"search", "首先需要发现相关仓库", some state.user_query, none⟩
    else if analyzed_repos < min 3 found_repos then
      ⟨"analyze", "需要深入分析已发现的仓库", none,
        some (state.repositories_found.getD analyzed_repos "")⟩
    else conclude
  | .comparison =>
    if found_repos < 3 then
      ⟨"search", "对比分析需要更多候选仓库", some state.user_query, none⟩
    else if analyzed_repos < min 3 found_repos then
      ⟨"analyze", "需要获取对比数据", none,
        some (state.repositories_found.getD analyzed_repos "")⟩
    else conclude
  | .deep_analysis =>
    if found_repos = 0 then
      ⟨"search", "需要先找到目标仓库", some state.user_query, none⟩
    else if analyzed_repos = 0 then
      ⟨"analyze", "进行深度分析", none, some (state.repositories_found.getD 0 "")⟩
    else if analyzed_repos < 2 then
      ⟨"language_analysis", "分析技术栈", none, some (state.repositories_found.getD 0 "")⟩
    else conclude
  | .trend_analysis =>
    if found_repos < 10 then
      ⟨"search", "趋势分析需要更多样本", some state.user_query, none⟩
    else if analyzed_repos < 5 then
      ⟨"analyze", "分析热门项目特征", none,
        some (state.repositories_found.getD analyzed_repos "")⟩
    else conclude
  | .solution_focused =>
    if found_repos < 5 then
      ⟨"search", "寻找更多解决方案", some (state.user_query ++ " solution implementation"), none⟩
    else if analyzed_repos < 3 then
      ⟨"analyze", "评估解决方案质量", none,
        some (state.repositories_found.getD analyzed_repos "")⟩
    else conclude

/-- Embeds `ReActGitHubAgent.should_continue_search` of `agent.py`:
iteration cap first, then the conclude suggestion, then per-strategy and
default information-sufficiency checks. -/
def should_continue_search (state : ReActState) : Bool :=
  if state.max_iterations ≤ state.iteration_count then
    false
  else
    let suggestion := get_next_action_suggestion state.current_strategy state
    if suggestion.priority == "conclude" then
      false
    else if state.repositories_found.isEmpty then
      true
    else
      let found := state.repositories_found.length
      let analyzed := state.detailed_analysis.length
      let strategyNeedsMore : Bool :=
        if state.current_strategy = .comparison then
          decide (analyzed < min 3 found)
        else if state.current_strategy = .deep_analysis then
          decide (analyzed < 1)
        else if state.current_strategy = .trend_analysis then
          decide (found < 10)
        else
          false
      if strategyNeedsMore then true
      else if analyzed < 2 then true
      else false

/-- Embeds `ReActGitHubAgent.initialize_search`: fresh `ReActState` with the
dataclass defaults (`iteration_count = 0`, `max_iterations = 5`) and the
strategy chosen by `analyze_query_intent`. -/
def initialize_search (user_query : String) : ReActState :=
  { user_query := user_query
    repositories_found := []
    detailed_analysis := []
    current_strategy := analyze_query_intent user_query
    iteration_count := 0
    max_iterations := 5 }

/-- The effect of one execution of the `while` body of `execute_react_cycle`
on the state, as supplied by the environment (LLM responses, tool results):
the new repository/analysis lists written by `_update_state`, and whether the
body leaves the loop early (`break` on an unparsed action or an exception). -/
structure BodyEffect where
  repositories_found : List String
  detailed_analysis : List String
  breaks : Bool

/-- Embeds one execution of the loop body of
`ReActGitHubAgent.execute_react_cycle`: `iteration_count` is incremented once
at the top, the strategy is switched per `should_switch_strategy`, and the
repository/analysis lists are updated from the environment's tool results. -/
def applyBody (s : ReActState) (e : BodyEffect) : ReActState :=
  let s1 := { s with iteration_count := s.iteration_count + 1 }
  let s2 :=
    match should_switch_strategy s1.current_strategy s1 with
    | some new_strategy => { s1 with current_strategy := new_strategy }
    | none => s1
  { s2 with
    repositories_found := e.repositories_found
    detailed_analysis := e.detailed_analysis }

theorem applyBody_iteration_count (s : ReActState) (e : BodyEffect) :
    (applyBody s e).iteration_count = s.iteration_count + 1 := by
  simp only [applyBody]
  split <;> rfl

theorem applyBody_max_iterations (s : ReActState) (e : BodyEffect) :
    (applyBody s e).max_iterations = s.max_iterations := by
  simp only [applyBody]
  split <;> rfl

/-- `should_continue_search` refuses to continue at or beyond the cap. -/
theorem should_continue_search_lt (s : ReActState) (h : should_continue_search s = true) :
    s.iteration_count < s.max_iterations := by
  by_cases hge : s.max_iterations ≤ s.iteration_count
  · simp [should_continue_search, hge] at h
  · omega

/-- Embeds the `while should_continue_search()` loop of
`ReActGitHubAgent.execute_react_cycle`, driven by the environment `env`
(the LLM and tool responses of each round). Returns the final state and the
number of loop-body executions (instrumentation for the iteration bound). -/
def execute_react_cycle (env : Nat → BodyEffect) (s : ReActState) : ReActState × Nat :=
  if h : should_continue_search s then
    let e := env s.iteration_count
    let s2 := applyBody s e
    if e.breaks then
      (s2, 1)
    else
      let r := execute_react_cycle env s2
      (r.1, r.2 + 1)
  else
    (s, 0)
termination_by s.max_iterations - s.iteration_count
decreasing_by
  have hlt := should_continue_search_lt s h
  simp only [applyBody_iteration_count, applyBody_max_iterations]
  omega

/-- Each run of the loop adds exactly the number of executed iterations to
`iteration_count`, and executes at most `max_iterations - iteration_count`
iterations. -/
theorem execute_react_cycle_count (env : Nat → BodyEffect) :
    ∀ s : ReActState,
      (execute_react_cycle env s).1.iteration_count
          = s.iteration_count + (execute_react_cycle env s).2 ∧
        (execute_react_cycle env s).2 ≤ s.max_iterations - s.iteration_count := by
  refine execute_react_cycle.induct env
    (fun s =>
      (execute_react_cycle env s).1.iteration_count
          = s.iteration_count + (execute_react_cycle env s).2 ∧
        (execute_react_cycle env s).2 ≤ s.max_iterations - s.iteration_count)
    ?_ ?_ ?_
  · intro s h e hb
    have hb2 : (env s.iteration_count).breaks = true := hb
    have hlt := should_continue_search_lt s h
    have hc := applyBody_iteration_count s (env s.iteration_count)
    have hunfold : execute_react_cycle env s = (applyBody s (env s.iteration_count), 1) := by
      rw [execute_react_cycle]
      simp [h, hb2]
    rw [hunfold]
    exact ⟨hc, by omega⟩
  · intro s h e s2 hb ih
    have hb2 : ¬(env s.iteration_count).breaks = true := hb
    have ih2 : (execute_react_cycle env (applyBody s (env s.iteration_count))).1.iteration_count
          = (applyBody s (env s.iteration_count)).iteration_count
            + (execute_react_cycle env (applyBody s (env s.iteration_count))).2 ∧
        (execute_react_cycle env (applyBody s (env s.iteration_count))).2
          ≤ (applyBody s (env s.iteration_count)).max_iterations
            - (applyBody s (env s.iteration_count)).iteration_count := ih
    have hlt := should_continue_search_lt s h
    have hc := applyBody_iteration_count s (env s.iteration_count)
    have hm := applyBody_max_iterations s (env s.iteration_count)
    have hunfold : execute_react_cycle env s
        = ((execute_react_cycle env (applyBody s (env s.iteration_count))).1,
           (execute_react_cycle env (applyBody s (env s.iteration_count))).2 + 1) := by
      rw [execute_react_cycle]
      simp [h, hb2]
    rw [hunfold]
    rw [hc, hm] at ih2
    clear ih
    constructor
    · show (execute_react_cycle env (applyBody s (env s.iteration_count))).1.iteration_count
        = s.iteration_count + ((execute_react_cycle env (applyBody s (env s.iteration_count))).2 + 1)
      omega
    · show (execute_react_cycle env (applyBody s (env s.iteration_count))).2 + 1
        ≤ s.max_iterations - s.iteration_count
      omega
  · intro s h
    have hunfold : execute_react_cycle env s = (s, 0) := by
      rw [execute_react_cycle]
      simp [h]
    rw [hunfold]
    exact ⟨rfl, Nat.zero_le _⟩

/-- C2: the ReAct loop always terminates within the iteration bound: the body
increments `iteration_count` exactly once per iteration,
`should_continue_search` returns false whenever
`iteration_count ≥ max_iterations`, and for every environment and every query
the loop started by `initialize_search` (default `max_iterations = 5`)
executes at most 5 iterations and ends with `iteration_count ≤ 5`; in
general, from any state with `iteration_count = 0` at most `max_iterations`
iterations run. -/
theorem c2_react_loop_bounded (env : Nat → BodyEffect) (q : String) :
    (execute_react_cycle env (initialize_search q)).1.iteration_count
        = (execute_react_cycle env (initialize_search q)).2 ∧
      (execute_react_cycle env (initialize_search q)).2 ≤ 5 ∧
      (execute_react_cycle env (initialize_search q)).1.iteration_count ≤ 5 ∧
      (∀ t : ReActState, t.max_iterations ≤ t.iteration_count →
        should_continue_search t = false) ∧
      (∀ (t : ReActState) (e : BodyEffect),
        (applyBody t e).iteration_count = t.iteration_count + 1) ∧
      (∀ t : ReActState, t.iteration_count = 0 →
        (execute_react_cycle env t).2 ≤ t.max_iterations) := by
  have hmain := execute_react_cycle_count env (initialize_search q)
  have h0 : (initialize_search q).iteration_count = 0 := rfl
  have h5 : (initialize_search q).max_iterations = 5 := rfl
  refine ⟨by omega, by omega, by omega, ?_, ?_, ?_⟩
  · intro t h
    simp [should_continue_search, h]
  · intro t e
    exact applyBody_iteration_count t e
  · intro t ht
    have := execute_react_cycle_count env t
    omega

/-- Witness for C2 at a concrete environment and query. -/
theorem c2_react_loop_bounded_witness :
    (execute_react_cycle (fun _ => ⟨[], [], false⟩) (initialize_search "rust")).2 ≤ 5 :=
  (c2_react_loop_bounded (fun _ => ⟨[], [], false⟩) "rust").2.1

/-! ### MCP server (`MCP/servers/Github_Search/server.py`) -/

/-- JSON values: embeds the Python objects loaded from / dumped to the
`repositories_info.json` files and the dicts serialized by `json.dumps`. -/
inductive JVal where
  | null
  | bool (b : Bool)
  | num (q : ℚ)
  | str (s : String)
  | arr (xs : List JVal)
  | obj (fields : List (String × JVal))

/-- A nullable string field of a GitHub API response (`none` = JSON null). -/
def jsonOfStrOpt : Option String → JVal
  | some s => .str s
  | none => .null

/-- Python exceptions that the MCP server code does NOT catch in the local
lookup phase of `get_repository_info` (anything except `FileNotFoundError`
and `json.JSONDecodeError`). -/
inductive PyExc where
  | typeError (msg : String)
  | keyError (msg : String)
  | osError (msg : String)
  | unicodeDecodeError (msg : String)
deriving DecidableEq

/-- Embeds the Python membership test `key in obj` for a loaded JSON value:
dict → key lookup, list → element equality, str → substring; on a number,
boolean or null Python raises `TypeError` (which the local-lookup loop of
`get_repository_info` does not catch). -/
def pyInJson (key : String) : JVal → Except PyExc Bool
  | .obj fields => .ok (fields.any (fun p => p.1 == key))
  | .arr xs => .ok (xs.any (fun j => match j with | .str s => s == key | _ => false))
  | .str s => .ok (strIn key s)
  | .num _ => .error (.typeError "argument of type 'int' is not iterable")
  | .bool _ => .error (.typeError "argument of type 'bool' is not iterable")
  | .null => .error (.typeError "argument of type 'NoneType' is not iterable")

/-- Embeds the Python subscript `obj[key]` on a loaded JSON value, as executed
after a successful membership test: dict → the value; a string or list
subscripted with a string raises `TypeError`. -/
def pyGetItem (key : String) : JVal → Except PyExc JVal
  | .obj fields =>
    match fields.lookup key with
    | some v => .ok v
    | none => .error (.keyError key)
  | .str _ => .error (.typeError "string indices must be integers")
  | .arr _ => .error (.typeError "list indices must be integers or slices, not str")
  | .num _ => .error (.typeError "'int' object is not subscriptable")
  | .bool _ => .error (.typeError "'bool' object is not subscriptable")
  | .null => .error (.typeError "'NoneType' object is not subscriptable")

/-- Outcome of one `requests.get` call site together with the processing of
its response inside the surrounding `try` block: the request raises a
`requests.RequestException`, the request or the response processing raises
any other exception, or a response with this status and (already parsed)
body is processed. -/
inductive HttpAttempt (α : Type) where
  | raiseRequestException (msg : String)
  | raiseOther (msg : String)
  | response (status : Nat) (body : α)

/-- The string message of the `requests.HTTPError` raised by
`response.raise_for_status()` for an error status (a `RequestException`). -/
def raiseForStatusMsg (status : Nat) : String :=
  s!"HTTP error {status}"

/-- A Python string returned by a tool function: either `json.dumps(x, …)` of
an embedded value `x`, or a plain (error or notice) message string. -/
inductive ToolStr where
  | jsonDump (j : JVal)
  | text (s : String)

/-- Result of one tool invocation: the returned string and how many HTTP
requests the invocation performed (each executed `requests.get` call). -/
structure ToolCallResult where
  result : ToolStr
  http_requests : Nat

/-- Embeds the `owner` sub-object read by `search_repositories`. -/
structure ApiOwner where
  login : String
  type : String
  html_url : String
deriving DecidableEq

/-- Embeds the `license` sub-object of a GitHub repository response
(`none` at the repository level = JSON null / absent license). -/
structure ApiLicense where
  name : String
deriving DecidableEq

/-- The fields of one item of a GitHub search response that
`search_repositories` reads. Nullable fields (`description`, `language`,
`license`) are `Option`; the GitHub schema always carries the keys, so the
`.get(k, default)` accesses of the source read exactly these values. -/
structure SearchRepo where
  name : String
  full_name : String
  description : Option String
  html_url : String
  clone_url : String
  language : Option String
  stargazers_count : Int
  forks_count : Int
  open_issues_count : Int
  created_at : String
  updated_at : String
  owner : ApiOwner
  topics : List String
  license : Option ApiLicense
  default_branch : String
deriving DecidableEq

/-- Embeds the nested `owner` dict stored by `search_repositories`. -/
structure OwnerInfo where
  login : String
  type : String
  url : String
deriving DecidableEq

/-- Embeds the `repo_info` dict that `search_repositories` stores under the
repository's full name in `repositories_info.json`. -/
structure RepoInfo where
  name : String
  full_name : String
  description : Option String
  url : String
  clone_url : String
  language : Option String
  stars : Int
  forks : Int
  issues : Int
  created_at : String
  updated_at : String
  owner : OwnerInfo
  topics : List String
  license : Option String
  default_branch : String
deriving DecidableEq

/-- Embeds the construction of `repo_info` from one search-response item in
`search_repositories` (`license` flattened to its `name`, `owner` projected
to three fields, every other stored field copied from the response). -/
def buildRepoInfo (repo : SearchRepo) : RepoInfo :=
  { name := repo.name
    full_name := repo.full_name
    description := repo.description
    url := repo.html_url
    clone_url := repo.clone_url
    language := repo.language
    stars := repo.stargazers_count
    forks := repo.forks_count
    issues := repo.open_issues_count
    created_at := repo.created_at
    updated_at := repo.updated_at
    owner := ⟨repo.owner.login, repo.owner.type, repo.owner.html_url⟩
    topics := repo.topics
    license := match repo.license with | some l => some l.name | none => none
    default_branch := repo.default_branch }

/-- Embeds the Python dict assignment `d[k] = v` on a JSON-object dict
represented as an assoc list in insertion order: replaces the value of an
existing key in place, otherwise appends the new pair. -/
def dictInsert (m : List (String × RepoInfo)) (k : String) (v : RepoInfo) :
    List (String × RepoInfo) :=
  match m with
  | [] => [(k, v)]
  | p :: rest => if p.1 == k then (k, v) :: rest else p :: dictInsert rest k v

/-- Embeds the `for repo in repositories` loop of `search_repositories`:
appends each full name to `repo_names` and stores `repo_info` under the full
name in `repos_info`. -/
def processRepos : List SearchRepo → List String × List (String × RepoInfo) →
    List String × List (String × RepoInfo)
  | [], acc => acc
  | repo :: rest, (names, infos) =>
    processRepos rest
      (names ++ [repo.full_name], dictInsert infos repo.full_name (buildRepoInfo repo))

/-- Embeds Python `s.replace(pat, rep)` (leftmost, non-overlapping) on
character lists; the source uses it to rewrite advanced-mode operators. -/
def listReplace (pat rep : List Char) : List Char → List Char
  | [] => []
  | c :: rest =>
    if h : pat ≠ [] ∧ listStartsWith pat (c :: rest) then
      rep ++ listReplace pat rep ((c :: rest).drop pat.length)
    else
      c :: listReplace pat rep rest
termination_by s => s.length
decreasing_by
  · have hp : 0 < pat.length := List.length_pos.mpr h.1
    simp only [List.length_drop, List.length_cons]
    omega
  · simp

/-- Embeds Python `query.replace(a, b)` on strings. -/
def pyReplace (s pat rep : String) : String :=
  String.mk (listReplace pat.toList rep.toList s.toList)

/-- Embeds the `processed_query` computation of `search_repositories`
(advanced mode rewrites `" AND "` to a space and keeps `" OR "`/`" NOT "`). -/
def processedQuery (query search_mode : String) : String :=
  if search_mode == "advanced" then
    pyReplace (pyReplace (pyReplace query " AND " " ") " OR " " OR ") " NOT " " NOT "
  else
    query

/-- Embeds the `params` dict sent with the single search request
(`per_page = min(max_results, 100)`). -/
structure SearchParams where
  q : String
  sort : String
  order : String
  per_page : Int
deriving DecidableEq

/-- What one `search_repositories` call did: the `List[str]` it returned, the
dict written to `repositories_info.json` (`none` when the call failed before
writing), the parameters of the search request, and how many HTTP requests
it performed. -/
structure SearchCallOutcome where
  returned : List String
  written : Option (List (String × RepoInfo))
  params : SearchParams
  http_requests : Nat

/-- Embeds the `search_repositories` tool of `server.py`. `prior` is the
parsed content of the existing `repositories_info.json` for this query's
directory (`none` when the file is missing or undecodable, which the source
maps to `{}`); `http` is the outcome of the single search request together
with its in-`try` processing. Exceptions raised later inside the `try`
(directory creation, file write) reach the same two `except` clauses and are
represented by the same injection points. -/
def search_repositories (query : String) (max_results : Int) (sort search_mode : String)
    (prior : Option (List (String × RepoInfo))) (http : HttpAttempt (List SearchRepo)) :
    SearchCallOutcome :=
  let processed_query := processedQuery query search_mode
  let params : SearchParams := ⟨processed_query, sort, "desc", min max_results 100⟩
  match http with
  | .raiseRequestException m =>
    ⟨["Error searching GitHub repositories: " ++ m], none, params, 1⟩
  | .raiseOther m =>
    ⟨["Unexpected error: " ++ m], none, params, 1⟩
  | .response status repositories =>
    if 400 ≤ status then
      ⟨["Error searching GitHub repositories: " ++ raiseForStatusMsg status], none, params, 1⟩
    else
      let repos_info := match prior with | some d => d | none => []
      let step := processRepos repositories ([], repos_info)
      ⟨step.1, some step.2, params, 1⟩

theorem dictInsert_lookup_self (m : List (String × RepoInfo)) (k : String) (v : RepoInfo) :
    (dictInsert m k v).lookup k = some v := by
  induction m with
  | nil => simp [dictInsert, List.lookup]
  | cons p rest ih =>
    obtain ⟨pk, pv⟩ := p
    by_cases h : pk = k
    · simp [dictInsert, h, List.lookup]
    · have hb : (k == pk) = false := beq_eq_false_iff_ne.mpr (Ne.symm h)
      have hb2 : (pk == k) = false := beq_eq_false_iff_ne.mpr h
      simp only [dictInsert, hb2, Bool.false_eq_true, if_false, List.lookup, hb]
      exact ih

theorem dictInsert_lookup_ne (m : List (String × RepoInfo)) (k k2 : String) (v : RepoInfo)
    (h : k2 ≠ k) : (dictInsert m k v).lookup k2 = m.lookup k2 := by
  induction m with
  | nil =>
    have hb : (k2 == k) = false := beq_eq_false_iff_ne.mpr h
    simp [dictInsert, List.lookup, hb]
  | cons p rest ih =>
    obtain ⟨pk, pv⟩ := p
    by_cases hp : pk = k
    · subst hp
      have hb : (k2 == pk) = false := beq_eq_false_iff_ne.mpr h
      simp [dictInsert, List.lookup, hb]
    · have hb2 : (pk == k) = false := beq_eq_false_iff_ne.mpr hp
      simp only [dictInsert, hb2, Bool.false_eq_true, if_false, List.lookup]
      cases hk2 : k2 == pk <;> simp [hk2, ih]

theorem processRepos_names (repos : List SearchRepo) (names : List String)
    (infos : List (String × RepoInfo)) :
    (processRepos repos (names, infos)).1 = names ++ repos.map SearchRepo.full_name := by
  induction repos generalizing names infos with
  | nil => simp [processRepos]
  | cons r rest ih => simp [processRepos, ih]

theorem processRepos_lookup_preserved (repos : List SearchRepo) (names : List String)
    (infos : List (String × RepoInfo)) (k : String)
    (h : ∀ r ∈ repos, r.full_name ≠ k) :
    (processRepos repos (names, infos)).2.lookup k = infos.lookup k := by
  induction repos generalizing names infos with
  | nil => rfl
  | cons r rest ih =>
    have hr : r.full_name ≠ k := h r (List.mem_cons_self r rest)
    rw [processRepos, ih _ _ (fun r2 h2 => h r2 (List.mem_cons_of_mem r h2))]
    exact dictInsert_lookup_ne infos r.full_name k (buildRepoInfo r) (Ne.symm hr)

theorem processRepos_lookup_mem (repos : List SearchRepo)
    (hnodup : (repos.map SearchRepo.full_name).Nodup) :
    ∀ (names : List String) (infos : List (String × RepoInfo)),
      ∀ r ∈ repos, (processRepos repos (names, infos)).2.lookup r.full_name
        = some (buildRepoInfo r) := by
  induction repos with
  | nil => intro names infos r hr; cases hr
  | cons r0 rest ih =>
    intro names infos r hr
    have hnodup2 := hnodup
    rw [List.map_cons, List.nodup_cons] at hnodup2
    rcases List.mem_cons.mp hr with heq | hmem
    · subst heq
      rw [processRepos]
      rw [processRepos_lookup_preserved]
      · exact dictInsert_lookup_self infos r.full_name (buildRepoInfo r)
      · intro r2 h2 hcontra
        exact hnodup2.1 (hcontra ▸ List.mem_map_of_mem SearchRepo.full_name h2)
    · rw [processRepos]
      exact ih hnodup2.2 _ _ r hmem

/-- Concrete search-response item used in witnesses and counterexamples. -/
def sampleRepo : SearchRepo :=
  { name := "repo"
    full_name := "new/repo"
    description := none
    html_url := "https://h"
    clone_url := "https://c"
    language := some "Rust"
    stargazers_count := 3
    forks_count := 1
    open_issues_count := 0
    created_at := "2024-01-01"
    updated_at := "2024-06-01"
    owner := ⟨"new", "User", "https://u"⟩
    topics := ["cli"]
    license := some ⟨"MIT"⟩
    default_branch := "main" }

/-- A second concrete repository, stored by an earlier search. -/
def oldRepo : SearchRepo :=
  { sampleRepo with name := "old", full_name := "old/repo" }

/-- C3: after every successful `search_repositories` call the persisted file
holds a single JSON dictionary keyed by repository full name; every
repository returned by the search appears as a key, the value stored under
it is the record built from that repository's API response item, and each
stored field equals the corresponding API response field. -/
theorem c3_search_persists_all_results (query : String) (max_results : Int)
    (sort search_mode : String) (prior : Option (List (String × RepoInfo)))
    (status : Nat) (repos : List SearchRepo)
    (hstatus : status < 400)
    (hnodup : (repos.map SearchRepo.full_name).Nodup) :
    ∃ d : List (String × RepoInfo),
      (search_repositories query max_results sort search_mode prior
          (.response status repos)).written = some d ∧
      (search_repositories query max_results sort search_mode prior
          (.response status repos)).returned = repos.map SearchRepo.full_name ∧
      (∀ r ∈ repos, d.lookup r.full_name = some (buildRepoInfo r)) ∧
      (∀ r : SearchRepo,
        (buildRepoInfo r).name = r.name ∧
        (buildRepoInfo r).full_name = r.full_name ∧
        (buildRepoInfo r).description = r.description ∧
        (buildRepoInfo r).url = r.html_url ∧
        (buildRepoInfo r).clone_url = r.clone_url ∧
        (buildRepoInfo r).language = r.language ∧
        (buildRepoInfo r).stars = r.stargazers_count ∧
        (buildRepoInfo r).forks = r.forks_count ∧
        (buildRepoInfo r).issues = r.open_issues_count ∧
        (buildRepoInfo r).created_at = r.created_at ∧
        (buildRepoInfo r).updated_at = r.updated_at ∧
        (buildRepoInfo r).owner.login = r.owner.login ∧
        (buildRepoInfo r).owner.type = r.owner.type ∧
        (buildRepoInfo r).owner.url = r.owner.html_url ∧
        (buildRepoInfo r).topics = r.topics ∧
        (buildRepoInfo r).license = r.license.map ApiLicense.name ∧
        (buildRepoInfo r).default_branch = r.default_branch) := by
  have hle : ¬ 400 ≤ status := by omega
  refine ⟨(processRepos repos ([], prior.getD [])).2, ?_, ?_, ?_, ?_⟩
  · cases prior <;> simp [search_repositories, hle]
  · cases prior <;> simp [search_repositories, hle, processRepos_names]
  · exact processRepos_lookup_mem repos hnodup [] (prior.getD [])
  · intro r
    refine ⟨rfl, rfl, rfl, rfl, rfl, rfl, rfl, rfl, rfl, rfl, rfl, rfl, rfl, rfl, rfl, ?_, rfl⟩
    cases hl : r.license <;> simp [buildRepoInfo, hl]

/-- Witness for C3 at a concrete successful search over a fresh directory. -/
theorem c3_search_persists_all_results_witness :
    ∃ d : List (String × RepoInfo),
      (search_repositories "rust cli" 5 "stars" "simple" none
          (.response 200 [sampleRepo])).written = some d ∧
      (search_repositories "rust cli" 5 "stars" "simple" none
          (.response 200 [sampleRepo])).returned = [sampleRepo].map SearchRepo.full_name ∧
      (∀ r ∈ [sampleRepo], d.lookup r.full_name = some (buildRepoInfo r)) ∧
      (∀ r : SearchRepo,
        (buildRepoInfo r).name = r.name ∧
        (buildRepoInfo r).full_name = r.full_name ∧
        (buildRepoInfo r).description = r.description ∧
        (buildRepoInfo r).url = r.html_url ∧
        (buildRepoInfo r).clone_url = r.clone_url ∧
        (buildRepoInfo r).language = r.language ∧
        (buildRepoInfo r).stars = r.stargazers_count ∧
        (buildRepoInfo r).forks = r.forks_count ∧
        (buildRepoInfo r).issues = r.open_issues_count ∧
        (buildRepoInfo r).created_at = r.created_at ∧
        (buildRepoInfo r).updated_at = r.updated_at ∧
        (buildRepoInfo r).owner.login = r.owner.login ∧
        (buildRepoInfo r).owner.type = r.owner.type ∧
        (buildRepoInfo r).owner.url = r.owner.html_url ∧
        (buildRepoInfo r).topics = r.topics ∧
        (buildRepoInfo r).license = r.license.map ApiLicense.name ∧
        (buildRepoInfo r).default_branch = r.default_branch) :=
  c3_search_persists_all_results "rust cli" 5 "stars" "simple" none 200 [sampleRepo]
    (by decide) (by simp)

/-- Counterexample to C4 as stated: a search does NOT overwrite the stored
dictionary with only this call's results — an entry left by an earlier
search under the same query directory survives, so the written dictionary
differs from the one built from the latest results alone. -/
theorem c4_counterexample_no_overwrite :
    (search_repositories "q" 5 "stars" "simple" (some [("old/repo", buildRepoInfo oldRepo)])
        (.response 200 [sampleRepo])).written
      ≠ some (processRepos [sampleRepo] ([], [])).2 := by
  decide

/-- C4 amended: on each successful call the stored dictionary is the merge of
the previously stored one with this call's results: per key returned by the
latest search the entry equals the record built by that call (last write
wins), and every other key keeps its previous entry (no deletion). -/
theorem c4_amended_merge_semantics (query : String) (max_results : Int)
    (sort search_mode : String) (prior : List (String × RepoInfo)) (status : Nat)
    (repos : List SearchRepo) (hstatus : status < 400)
    (hnodup : (repos.map SearchRepo.full_name).Nodup) :
    ∃ d : List (String × RepoInfo),
      (search_repositories query max_results sort search_mode (some prior)
          (.response status repos)).written = some d ∧
      (∀ r ∈ repos, d.lookup r.full_name = some (buildRepoInfo r)) ∧
      (∀ k, (∀ r ∈ repos, r.full_name ≠ k) → d.lookup k = prior.lookup k) := by
  have hle : ¬ 400 ≤ status := by omega
  refine ⟨(processRepos repos ([], prior)).2, ?_, ?_, ?_⟩
  · simp [search_repositories, hle]
  · exact processRepos_lookup_mem repos hnodup [] prior
  · intro k hk
    exact processRepos_lookup_preserved repos [] prior k hk

/-- Witness for the amended C4 at a concrete merge. -/
theorem c4_amended_merge_semantics_witness :
    ∃ d : List (String × RepoInfo),
      (search_repositories "q" 5 "stars" "simple" (some [("old/repo", buildRepoInfo oldRepo)])
          (.response 200 [sampleRepo])).written = some d ∧
      (∀ r ∈ [sampleRepo], d.lookup r.full_name = some (buildRepoInfo r)) ∧
      (∀ k, (∀ r ∈ [sampleRepo], r.full_name ≠ k) →
        d.lookup k = [("old/repo", buildRepoInfo oldRepo)].lookup k) :=
  c4_amended_merge_semantics "q" 5 "stars" "simple" [("old/repo", buildRepoInfo oldRepo)]
    200 [sampleRepo] (by decide) (by simp)

/-- C7: `search_repositories` does no pagination: every invocation requests
`per_page = min(max_results, 100)` (never more than 100) and performs exactly
one search request, fetching no further pages. -/
theorem c7_search_single_page (query : String) (max_results : Int) (sort search_mode : String)
    (prior : Option (List (String × RepoInfo))) (http : HttpAttempt (List SearchRepo)) :
    (search_repositories query max_results sort search_mode prior http).params.per_page
        = min max_results 100 ∧
      (search_repositories query max_results sort search_mode prior http).params.per_page
        ≤ 100 ∧
      (search_repositories query max_results sort search_mode prior http).http_requests = 1 := by
  have hmin : min max_results 100 ≤ 100 := min_le_right max_results 100
  cases http with
  | raiseRequestException m => exact ⟨rfl, hmin, rfl⟩
  | raiseOther m => exact ⟨rfl, hmin, rfl⟩
  | response status body =>
    by_cases h : 400 ≤ status <;> simp [search_repositories, h, hmin]

/-- C10: `search_repositories` returns a `List[str]` on the success path and
on every error path; each caught exception yields a one-element list holding
the error message, the same shape as a successful search that found exactly
one repository. -/
theorem c10_search_error_shape (query : String) (max_results : Int) (sort search_mode : String)
    (prior : Option (List (String × RepoInfo))) :
    (∀ m : String,
        (search_repositories query max_results sort search_mode prior
            (.raiseRequestException m)).returned
          = ["Error searching GitHub repositories: " ++ m] ∧
        (search_repositories query max_results sort search_mode prior
            (.raiseOther m)).returned
          = ["Unexpected error: " ++ m]) ∧
      (∀ r : SearchRepo,
        (search_repositories query max_results sort search_mode prior
            (.response 200 [r])).returned = [r.full_name]) := by
  refine ⟨fun m => ⟨rfl, rfl⟩, fun r => ?_⟩
  have h : ¬ (400 : Nat) ≤ 200 := by omega
  cases prior <;> simp [search_repositories, h, processRepos_names]

/-- Models Python `round(x, 2)` on the percentage value (up to the float
tie-breaking detail, on which no claim depends). -/
def pyRound2 (x : ℚ) : ℚ :=
  ((round (x * 100) : ℤ) : ℚ) / 100

/-- The percentage computed by `get_repository_languages` for one language:
division happens only under the `total_bytes > 0` guard, otherwise 0. -/
def languagePercentage (total_bytes : Int) (bytes_count : Int) : ℚ :=
  if total_bytes > 0 then pyRound2 ((bytes_count : ℚ) / (total_bytes : ℚ) * 100) else 0

/-- The `language_stats` dict of `get_repository_languages`: per language its
byte count and percentage. -/
def languageStats (total_bytes : Int) (languages_data : List (String × Int)) :
    List (String × JVal) :=
  languages_data.map (fun p =>
    (p.1, JVal.obj [("bytes", .num (p.2 : ℚ)),
                    ("percentage", .num (languagePercentage total_bytes p.2))]))

/-- Embeds the `get_repository_languages` tool of `server.py`. The response
body is the parsed language → byte-count object. -/
def get_repository_languages (full_name : String)
    (http : HttpAttempt (List (String × Int))) : ToolCallResult :=
  match http with
  | .raiseRequestException m =>
    ⟨.text ("Error fetching language data from GitHub: " ++ m), 1⟩
  | .raiseOther m =>
    ⟨.text ("Unexpected error: " ++ m), 1⟩
  | .response status languages_data =>
    if status == 404 then
      ⟨.text ("Repository '" ++ full_name ++ "' not found on GitHub."), 1⟩
    else if 400 ≤ status then
      ⟨.text ("Error fetching language data from GitHub: " ++ raiseForStatusMsg status), 1⟩
    else
      let total_bytes := (languages_data.map Prod.snd).sum
      ⟨.jsonDump (.obj [("repository", .str full_name),
          ("total_bytes", .num (total_bytes : ℚ)),
          ("languages", .obj (languageStats total_bytes languages_data))]), 1⟩

/-- C9: on every successful response `get_repository_languages` returns the
JSON dump of the statistics object; its `total_bytes` always equals the sum
of the per-language byte counts, and the division is guarded, so a zero sum
(including the empty language map) makes every reported percentage 0 with no
division performed. -/
theorem c9_languages_division_guarded (full_name : String)
    (languages_data : List (String × Int)) (status : Nat)
    (hs : status ≠ 404 ∧ status < 400) :
    (get_repository_languages full_name (.response status languages_data)).result
        = .jsonDump (.obj [("repository", .str full_name),
            ("total_bytes", .num (((languages_data.map Prod.snd).sum : Int) : ℚ)),
            ("languages", .obj (languageStats (languages_data.map Prod.snd).sum
              languages_data))]) ∧
      ((languages_data.map Prod.snd).sum = 0 →
        ∀ p ∈ languages_data,
          languagePercentage (languages_data.map Prod.snd).sum p.2 = 0) := by
  have h404 : (status == 404) = false := beq_eq_false_iff_ne.mpr hs.1
  have hle : ¬ 400 ≤ status := by omega
  constructor
  · simp [get_repository_languages, h404, hle]
  · intro h0 p _
    rw [h0]
    simp [languagePercentage]

/-- Witness for C9: a repository whose single language has zero bytes. -/
theorem c9_languages_division_guarded_witness :
    (get_repository_languages "o/r" (.response 200 [("Python", (0 : Int))])).result
        = .jsonDump (.obj [("repository", .str "o/r"),
            ("total_bytes", .num ((([("Python", (0 : Int))].map Prod.snd).sum : Int) : ℚ)),
            ("languages", .obj (languageStats ([("Python", (0 : Int))].map Prod.snd).sum
              [("Python", (0 : Int))]))]) ∧
      languagePercentage ([("Python", (0 : Int))].map Prod.snd).sum 0 = 0 :=
  ⟨(c9_languages_division_guarded "o/r" [("Python", 0)] 200 (by omega)).1,
    (c9_languages_division_guarded "o/r" [("Python", 0)] 200 (by omega)).2 (by simp)
      ("Python", 0) (by simp)⟩

/-- The fields of one GitHub contents item that `get_repository_tree` and
`get_repository_file_content` read (`download_url` nullable via `.get`). -/
structure ContentsItem where
  name : String
  type : String
  size : Int
  path : String
  download_url : Option String
  html_url : String
deriving DecidableEq

/-- The parsed body of a contents response: a JSON array (directory listing)
or a single JSON object (one file), matching the `isinstance(contents_data,
list)` check of the source. -/
inductive ContentsBody where
  | listing (items : List ContentsItem)
  | single (item : ContentsItem)
deriving DecidableEq

/-- Embeds the `get_repository_tree` tool of `server.py`. -/
def get_repository_tree (full_name path : String) (http : HttpAttempt ContentsBody) :
    ToolCallResult :=
  match http with
  | .raiseRequestException m =>
    ⟨.text ("Error fetching repository tree from GitHub: " ++ m), 1⟩
  | .raiseOther m =>
    ⟨.text ("Unexpected error: " ++ m), 1⟩
  | .response status contents_data =>
    if status == 404 then
      ⟨.text ("Repository '" ++ full_name ++ "' or path '" ++ path ++
        "' not found on GitHub."), 1⟩
    else if 400 ≤ status then
      ⟨.text ("Error fetching repository tree from GitHub: " ++ raiseForStatusMsg status), 1⟩
    else
      match contents_data with
      | .listing contents =>
        let items := contents.map (fun item => JVal.obj [
          ("name", .str item.name),
          ("type", .str item.type),
          ("size", if item.type == "file" then .num (item.size : ℚ) else .null),
          ("path", .str item.path),
          ("download_url", jsonOfStrOpt item.download_url),
          ("html_url", .str item.html_url)])
        ⟨.jsonDump (.obj [("repository", .str full_name),
          ("path", .str (if path == "" then "/" else path)),
          ("type", .str "directory"),
          ("items", .arr items),
          ("total_items", .num (contents.length : ℚ))]), 1⟩
      | .single item =>
        ⟨.jsonDump (.obj [("repository", .str full_name),
          ("path", .str path),
          ("type", .str "file"),
          ("name", .str item.name),
          ("size", .num (item.size : ℚ)),
          ("download_url", jsonOfStrOpt item.download_url),
          ("html_url", .str item.html_url)]), 1⟩

/-- The fields of a contents-API file object that
`get_repository_file_content` reads (`content` and `encoding` via `.get`;
`content = none` when the key is absent, `some ""` is falsy like in Python). -/
structure FileData where
  type : String
  size : Int
  name : String
  encoding : Option String
  content : Option String
  sha : String
  html_url : String
  download_url : Option String
deriving DecidableEq

/-- Outcome of `base64.b64decode(...).decode("utf-8")` on the file payload:
UTF-8 text, a `UnicodeDecodeError` (caught, binary-file placeholder), or any
other exception (reaches the outer `except Exception`). -/
inductive DecodeOutcome where
  | utf8 (s : String)
  | unicodeError
  | raiseOther (msg : String)
deriving DecidableEq

/-- Embeds the `get_repository_file_content` tool of `server.py`. -/
def get_repository_file_content (full_name file_path : String) (max_size : Int)
    (http : HttpAttempt FileData) (dec : DecodeOutcome) : ToolCallResult :=
  match http with
  | .raiseRequestException m =>
    ⟨.text ("Error fetching file content from GitHub: " ++ m), 1⟩
  | .raiseOther m =>
    ⟨.text ("Unexpected error: " ++ m), 1⟩
  | .response status file_data =>
    if status == 404 then
      ⟨.text ("Repository '" ++ full_name ++ "' or file '" ++ file_path ++
        "' not found on GitHub."), 1⟩
    else if 400 ≤ status then
      ⟨.text ("Error fetching file content from GitHub: " ++ raiseForStatusMsg status), 1⟩
    else if file_data.type ≠ "file" then
      ⟨.text ("'" ++ file_path ++ "' is not a file, it's a " ++ file_data.type ++ "."), 1⟩
    else if file_data.size > max_size then
      ⟨.text ("File '" ++ file_path ++ "' is too large (" ++ toString file_data.size ++
        " bytes). Maximum allowed size is " ++ toString max_size ++
        " bytes. Use get_repository_tree to browse directories instead."), 1⟩
    else
      let hasContent := match file_data.content with
        | some c => !(c == "")
        | none => false
      let contentRes : Except String String :=
        if hasContent then
          match dec with
          | .utf8 s => .ok s
          | .unicodeError => .ok ("[Binary file - " ++ toString file_data.size ++ " bytes]")
          | .raiseOther m => .error m
        else
          .ok ""
      match contentRes with
      | .error m => ⟨.text ("Unexpected error: " ++ m), 1⟩
      | .ok content =>
        ⟨.jsonDump (.obj [("repository", .str full_name),
          ("file_path", .str file_path),
          ("name", .str file_data.name),
          ("size", .num (file_data.size : ℚ)),
          ("encoding", .str (file_data.encoding.getD "unknown")),
          ("content", .str content),
          ("sha", .str file_data.sha),
          ("html_url", .str file_data.html_url),
          ("download_url", jsonOfStrOpt file_data.download_url)]), 1⟩

/-- Python `s[:n]` on a string (slice of the first `n` characters). -/
def pyTake (s : String) (n : Nat) : String :=
  String.mk (s.toList.take n)

/-- Outcome of reading one `repositories_info.json` during the local lookup
of `get_repository_info`: the file raises `FileNotFoundError` (caught), its
content raises `json.JSONDecodeError` (caught), reading raises any other
exception (NOT caught by the `except (FileNotFoundError, JSONDecodeError)`
clause), or a JSON value is loaded. -/
inductive FileReadOutcome where
  | missing
  | badJson
  | otherError (e : PyExc)
  | ok (j : JVal)

/-- One entry of `os.listdir(REPO_DIR)` as seen by the local lookup:
its name, whether it is a directory, and the read outcome of its
`repositories_info.json` (`none` = `os.path.isfile` is false). -/
structure RepoDirEntry where
  name : String
  is_dir : Bool
  info_file : Option FileReadOutcome

/-- Embeds the local-lookup loop of `get_repository_info`: walk the stored
query directories; a missing or undecodable file is skipped (`continue`), any
other exception propagates, and the first file whose loaded value contains
`full_name` returns the stored entry. -/
def lookupLocal (full_name : String) : List RepoDirEntry → Except PyExc (Option JVal)
  | [] => .ok none
  | e :: rest =>
    if e.is_dir then
      match e.info_file with
      | none => lookupLocal full_name rest
      | some .missing => lookupLocal full_name rest
      | some .badJson => lookupLocal full_name rest
      | some (.otherError exc) => .error exc
      | some (.ok repos_info) =>
        match pyInJson full_name repos_info with
        | .error exc => .error exc
        | .ok true =>
          match pyGetItem full_name repos_info with
          | .error exc => .error exc
          | .ok v => .ok (some v)
        | .ok false => lookupLocal full_name rest
    else
      lookupLocal full_name rest

/-- Embeds the `owner` sub-object read by `get_repository_info`. -/
structure ApiOwnerFull where
  login : String
  type : String
  html_url : String
  avatar_url : String
deriving DecidableEq

/-- The fields of a repository response that `get_repository_info` reads
(the JSON key `private` is embedded as `is_private`; `private` is a Lean
keyword). -/
structure RepoData where
  name : String
  full_name : String
  description : Option String
  html_url : String
  clone_url : String
  ssh_url : String
  language : Option String
  stargazers_count : Int
  forks_count : Int
  watchers_count : Int
  open_issues_count : Int
  size : Int
  created_at : String
  updated_at : String
  pushed_at : String
  owner : ApiOwnerFull
  topics : List String
  license : Option ApiLicense
  default_branch : String
  archived : Bool
  disabled : Bool
  is_private : Bool
deriving DecidableEq

/-- Outcome of the README sub-request of `get_repository_info`. The whole
readme block sits in a bare `try/except: pass`, so `raised` covers any
exception there (request failure, bad base64, bad UTF-8); `decoded` is the
text of `b64decode(content).decode("utf-8")` on success. -/
inductive ReadmeOutcome where
  | raised
  | response (status : Nat) (decoded : String)
deriving DecidableEq

/-- The `detailed_info` dict built by `get_repository_info` on the API path. -/
def detailedInfo (repo_data : RepoData) (readme_content : String) : JVal :=
  .obj [("name", .str repo_data.name),
    ("full_name", .str repo_data.full_name),
    ("description", jsonOfStrOpt repo_data.description),
    ("url", .str repo_data.html_url),
    ("clone_url", .str repo_data.clone_url),
    ("ssh_url", .str repo_data.ssh_url),
    ("language", jsonOfStrOpt repo_data.language),
    ("stars", .num (repo_data.stargazers_count : ℚ)),
    ("forks", .num (repo_data.forks_count : ℚ)),
    ("watchers", .num (repo_data.watchers_count : ℚ)),
    ("issues", .num (repo_data.open_issues_count : ℚ)),
    ("size", .num (repo_data.size : ℚ)),
    ("created_at", .str repo_data.created_at),
    ("updated_at", .str repo_data.updated_at),
    ("pushed_at", .str repo_data.pushed_at),
    ("owner", .obj [("login", .str repo_data.owner.login),
      ("type", .str repo_data.owner.type),
      ("url", .str repo_data.owner.html_url),
      ("avatar_url", .str repo_data.owner.avatar_url)]),
    ("topics", .arr (repo_data.topics.map JVal.str)),
    ("license", jsonOfStrOpt (repo_data.license.map ApiLicense.name)),
    ("default_branch", .str repo_data.default_branch),
    ("archived", .bool repo_data.archived),
    ("disabled", .bool repo_data.disabled),
    ("private", .bool repo_data.is_private),
    ("readme_preview", .str (if readme_content.length > 500
      then pyTake readme_content 500 ++ "..." else readme_content))]

/-- Embeds the `get_repository_info` tool of `server.py`: local lookup first
(whose uncaught exceptions propagate as `.error`), then the repository
request and the README sub-request inside the `try` block. -/
def get_repository_info (full_name : String) (repo_dirs : List RepoDirEntry)
    (http : HttpAttempt RepoData) (readme : ReadmeOutcome) :
    Except PyExc ToolCallResult :=
  match lookupLocal full_name repo_dirs with
  | .error e => .error e
  | .ok (some v) => .ok ⟨.jsonDump v, 0⟩
  | .ok none =>
    match http with
    | .raiseRequestException m =>
      .ok ⟨.text ("Error fetching repository info from GitHub: " ++ m), 1⟩
    | .raiseOther m =>
      .ok ⟨.text ("Unexpected error: " ++ m), 1⟩
    | .response status repo_data =>
      if status == 404 then
        .ok ⟨.text ("Repository '" ++ full_name ++ "' not found on GitHub."), 1⟩
      else if 400 ≤ status then
        .ok ⟨.text ("Error fetching repository info from GitHub: " ++
          raiseForStatusMsg status), 1⟩
      else
        let readme_content := match readme with
          | .raised => ""
          | .response rs decoded => if rs == 200 then pyTake decoded 1000 else ""
        .ok ⟨.jsonDump (detailedInfo repo_data readme_content), 2⟩

/-- A concrete repository response used to instantiate the API oracle. -/
def trivialRepoData : RepoData :=
  { name := "r"
    full_name := "o/r"
    description := none
    html_url := "h"
    clone_url := "c"
    ssh_url := "s"
    language := none
    stargazers_count := 0
    forks_count := 0
    watchers_count := 0
    open_issues_count := 0
    size := 0
    created_at := ""
    updated_at := ""
    pushed_at := ""
    owner := ⟨"o", "User", "u", "a"⟩
    topics := []
    license := none
    default_branch := "main"
    archived := false
    disabled := false
    is_private := false }

/-- Every loaded local file is benign for the local lookup: no uncaught read
error, and a loaded value that is a JSON object (a dict, as the server itself
writes). -/
def dirsAreDicts (dirs : List RepoDirEntry) : Prop :=
  ∀ e ∈ dirs, match e.info_file with
    | some (.otherError _) => False
    | some (.ok j) => ∃ fields, j = JVal.obj fields
    | _ => True

theorem lookup_isSome_of_any (fields : List (String × JVal)) (key : String)
    (h : fields.any (fun p => p.1 == key) = true) : ∃ v, fields.lookup key = some v := by
  induction fields with
  | nil => simp at h
  | cons p rest ih =>
    obtain ⟨pk, pv⟩ := p
    by_cases hk : key = pk
    · exact ⟨pv, by simp [List.lookup, hk]⟩
    · have hb : (key == pk) = false := beq_eq_false_iff_ne.mpr hk
      have hb2 : (pk == key) = false := beq_eq_false_iff_ne.mpr (Ne.symm hk)
      simp only [List.any_cons, hb2, Bool.false_or] at h
      rcases ih h with ⟨v, hv⟩
      exact ⟨v, by simp [List.lookup, hb, hv]⟩

/-- Under benign local files the local lookup never raises. -/
theorem lookupLocal_ok (full_name : String) (dirs : List RepoDirEntry)
    (h : dirsAreDicts dirs) : ∃ o, lookupLocal full_name dirs = .ok o := by
  induction dirs with
  | nil => exact ⟨none, rfl⟩
  | cons e rest ih =>
    have he := h e (List.mem_cons_self e rest)
    have hrest : dirsAreDicts rest := fun e2 h2 => h e2 (List.mem_cons_of_mem e h2)
    by_cases hd : e.is_dir
    · cases hf : e.info_file with
      | none => simpa [lookupLocal, hd, hf] using ih hrest
      | some o =>
        cases o with
        | missing => simpa [lookupLocal, hd, hf] using ih hrest
        | badJson => simpa [lookupLocal, hd, hf] using ih hrest
        | otherError exc =>
          rw [hf] at he
          exact absurd he (by simp)
        | ok j =>
          rw [hf] at he
          obtain ⟨fields, rfl⟩ := he
          by_cases hmem : fields.any (fun p => p.1 == full_name)
          · rcases lookup_isSome_of_any fields full_name hmem with ⟨v, hv⟩
            exact ⟨some v, by simp [lookupLocal, hd, hf, pyInJson, hmem, pyGetItem, hv]⟩
          · have hmem2 : (fields.any (fun p => p.1 == full_name)) = false :=
              Bool.not_eq_true _ ▸ by simpa using hmem
            rcases ih hrest with ⟨o, ho⟩
            exact ⟨o, by simp [lookupLocal, hd, hf, pyInJson, hmem2, ho]⟩
    · simpa [lookupLocal, hd] using ih hrest

/-- Counterexample to C5 as stated: with a stored `repositories_info.json`
holding the valid JSON document `42`, the membership test
`full_name in repos_info` raises `TypeError`, which the local-lookup loop of
`get_repository_info` does not catch, so the exception propagates to the
caller instead of being returned as a message string. -/
theorem c5_counterexample_typeerror_propagates :
    get_repository_info "owner/repo" [⟨"some_query", true, some (.ok (.num 42))⟩]
        (.response 200 trivialRepoData) .raised
      = .error (.typeError "argument of type 'int' is not iterable") := rfl

/-- C5 amended: every exception of the HTTP-request/response phase of the
five tool functions is caught inside the function and returned as a
human-readable message string (wrapped in a list for `search_repositories`);
in `get_repository_info`, the local cache lookup catches only
`FileNotFoundError` and `json.JSONDecodeError` (skipping the file), and the
function returns normally whenever every local file read is one of those or
loads a JSON object. -/
theorem c5_amended_catch_structure :
    (∀ (q : String) (mr : Int) (srt md : String)
        (prior : Option (List (String × RepoInfo))) (m : String),
        (search_repositories q mr srt md prior (.raiseRequestException m)).returned
          = ["Error searching GitHub repositories: " ++ m] ∧
        (search_repositories q mr srt md prior (.raiseOther m)).returned
          = ["Unexpected error: " ++ m]) ∧
    (∀ fn m : String,
        (get_repository_languages fn (.raiseRequestException m)).result
          = .text ("Error fetching language data from GitHub: " ++ m) ∧
        (get_repository_languages fn (.raiseOther m)).result
          = .text ("Unexpected error: " ++ m)) ∧
    (∀ fn p m : String,
        (get_repository_tree fn p (.raiseRequestException m)).result
          = .text ("Error fetching repository tree from GitHub: " ++ m) ∧
        (get_repository_tree fn p (.raiseOther m)).result
          = .text ("Unexpected error: " ++ m)) ∧
    (∀ (fn fp : String) (ms : Int) (m : String) (dec : DecodeOutcome),
        (get_repository_file_content fn fp ms (.raiseRequestException m) dec).result
          = .text ("Error fetching file content from GitHub: " ++ m) ∧
        (get_repository_file_content fn fp ms (.raiseOther m) dec).result
          = .text ("Unexpected error: " ++ m)) ∧
    (∀ (fn m : String) (dirs : List RepoDirEntry) (readme : ReadmeOutcome),
        dirsAreDicts dirs →
        ((lookupLocal fn dirs = .ok none) →
          get_repository_info fn dirs (.raiseRequestException m) readme
            = .ok ⟨.text ("Error fetching repository info from GitHub: " ++ m), 1⟩ ∧
          get_repository_info fn dirs (.raiseOther m) readme
            = .ok ⟨.text ("Unexpected error: " ++ m), 1⟩) ∧
        ∀ http : HttpAttempt RepoData,
          ∃ r, get_repository_info fn dirs http readme = .ok r) := by
  refine ⟨fun q mr srt md prior m => ⟨rfl, rfl⟩,
    fun fn m => ⟨rfl, rfl⟩,
    fun fn p m => ⟨rfl, rfl⟩,
    fun fn fp ms m dec => ⟨rfl, rfl⟩,
    fun fn m dirs readme hdirs => ⟨?_, ?_⟩⟩
  · intro hnone
    exact ⟨by simp [get_repository_info, hnone], by simp [get_repository_info, hnone]⟩
  · intro http
    rcases lookupLocal_ok fn dirs hdirs with ⟨o, ho⟩
    cases o with
    | some v => exact ⟨⟨.jsonDump v, 0⟩, by simp [get_repository_info, ho]⟩
    | none =>
      cases http with
      | raiseRequestException m2 =>
        exact ⟨⟨.text ("Error fetching repository info from GitHub: " ++ m2), 1⟩,
          by simp [get_repository_info, ho]⟩
      | raiseOther m2 =>
        exact ⟨⟨.text ("Unexpected error: " ++ m2), 1⟩, by simp [get_repository_info, ho]⟩
      | response st rd =>
        by_cases h404 : (st == 404) = true
        · exact ⟨⟨.text ("Repository '" ++ fn ++ "' not found on GitHub."), 1⟩,
            by simp [get_repository_info, ho, h404]⟩
        · by_cases hge : 400 ≤ st
          · exact ⟨⟨.text ("Error fetching repository info from GitHub: " ++
                raiseForStatusMsg st), 1⟩, by simp [get_repository_info, ho, h404, hge]⟩
          · exact ⟨⟨.jsonDump (detailedInfo rd (match readme with
                | .raised => ""
                | .response rs decoded => if rs == 200 then pyTake decoded 1000 else "")), 2⟩,
              by simp [get_repository_info, ho, h404, hge]⟩

/-- Witness for the amended C5: concrete raise outcomes and a concrete benign
local state. -/
theorem c5_amended_catch_structure_witness :
    (get_repository_languages "o/r" (.raiseRequestException "boom")).result
        = .text ("Error fetching language data from GitHub: " ++ "boom") ∧
      ∃ r, get_repository_info "o/r" [] (.response 200 trivialRepoData) .raised = .ok r :=
  ⟨(c5_amended_catch_structure.2.1 "o/r" "boom").1,
    (c5_amended_catch_structure.2.2.2.2 "o/r" "x" [] .raised
      (fun e he => absurd he (List.not_mem_nil e))).2 (.response 200 trivialRepoData)⟩

/-- A local store whose single query directory already caches `owner/repo`. -/
def hitDirs : List RepoDirEntry :=
  [⟨"q", true, some (.ok (.obj [("owner/repo", .obj [("name", .str "repo")])]))⟩]

/-- Counterexample to C6 as stated: a `get_repository_info` invocation that
finds the repository in the local cache performs ZERO HTTP requests, and a
cache-miss invocation whose repository request succeeds performs TWO (the
repository plus the README) — not exactly one per invocation. -/
theorem c6_counterexample_request_count :
    get_repository_info "owner/repo" hitDirs (.response 200 trivialRepoData) .raised
        = .ok ⟨.jsonDump (.obj [("name", .str "repo")]), 0⟩ ∧
      get_repository_info "o/r" [] (.response 200 trivialRepoData) .raised
        = .ok ⟨.jsonDump (detailedInfo trivialRepoData ""), 2⟩ ∧
      (0 : Nat) ≠ 1 ∧ (2 : Nat) ≠ 1 :=
  ⟨rfl, rfl, by decide, by decide⟩

/-- C6 amended: every tool operation is a synchronous blocking call
performing a bounded number of HTTP requests: `search_repositories`,
`get_repository_languages`, `get_repository_tree` and
`get_repository_file_content` each perform exactly one request per
invocation; `get_repository_info` performs zero on a local-cache hit and at
most two otherwise (the repository request, plus the README request when the
first succeeds). -/
theorem c6_amended_request_counts :
    (∀ (q : String) (mr : Int) (srt md : String)
        (prior : Option (List (String × RepoInfo))) (http : HttpAttempt (List SearchRepo)),
        (search_repositories q mr srt md prior http).http_requests = 1) ∧
    (∀ (fn : String) (http : HttpAttempt (List (String × Int))),
        (get_repository_languages fn http).http_requests = 1) ∧
    (∀ (fn p : String) (http : HttpAttempt ContentsBody),
        (get_repository_tree fn p http).http_requests = 1) ∧
    (∀ (fn fp : String) (ms : Int) (http : HttpAttempt FileData) (dec : DecodeOutcome),
        (get_repository_file_content fn fp ms http dec).http_requests = 1) ∧
    (∀ (fn : String) (dirs : List RepoDirEntry) (http : HttpAttempt RepoData)
        (readme : ReadmeOutcome) (r : ToolCallResult),
        get_repository_info fn dirs http readme = .ok r → r.http_requests ≤ 2) ∧
    (∀ (fn : String) (dirs : List RepoDirEntry) (http : HttpAttempt RepoData)
        (readme : ReadmeOutcome) (v : JVal),
        lookupLocal fn dirs = .ok (some v) →
        get_repository_info fn dirs http readme = .ok ⟨.jsonDump v, 0⟩) := by
  refine ⟨?_, ?_, ?_, ?_, ?_, ?_⟩
  · intro q mr srt md prior http
    cases http with
    | raiseRequestException m => rfl
    | raiseOther m => rfl
    | response st b => by_cases h : 400 ≤ st <;> simp [search_repositories, h]
  · intro fn http
    cases http with
    | raiseRequestException m => rfl
    | raiseOther m => rfl
    | response st b =>
      by_cases h404 : (st == 404) = true
      · simp [get_repository_languages, h404]
      · by_cases h : 400 ≤ st <;> simp [get_repository_languages, h404, h]
  · intro fn p http
    cases http with
    | raiseRequestException m => rfl
    | raiseOther m => rfl
    | response st b =>
      by_cases h404 : (st == 404) = true
      · simp [get_repository_tree, h404]
      · by_cases h : 400 ≤ st
        · simp [get_repository_tree, h404, h]
        · cases b <;> simp [get_repository_tree, h404, h]
  · intro fn fp ms http dec
    cases http with
    | raiseRequestException m => rfl
    | raiseOther m => rfl
    | response st fd =>
      by_cases h404 : (st == 404) = true
      · simp [get_repository_file_content, h404]
      · by_cases h : 400 ≤ st
        · simp [get_repository_file_content, h404, h]
        · by_cases ht : fd.type = "file"
          · by_cases hsz : fd.size > ms
            · simp [get_repository_file_content, h404, h, ht, hsz]
            · cases hc : fd.content with
              | none => simp [get_repository_file_content, h404, h, ht, hsz, hc]
              | some c =>
                by_cases hce : (c == "") = true
                · simp [get_repository_file_content, h404, h, ht, hsz, hc, hce]
                · cases dec <;>
                    simp [get_repository_file_content, h404, h, ht, hsz, hc, hce]
          · simp [get_repository_file_content, h404, h, ht]
  · intro fn dirs http readme r hr
    cases hl : lookupLocal fn dirs with
    | error e => simp [get_repository_info, hl] at hr
    | ok o =>
      cases o with
      | some v =>
        simp [get_repository_info, hl] at hr
        subst hr
        simp
      | none =>
        cases http with
        | raiseRequestException m =>
          simp [get_repository_info, hl] at hr
          subst hr
          simp
        | raiseOther m =>
          simp [get_repository_info, hl] at hr
          subst hr
          simp
        | response st rd =>
          by_cases h404 : (st == 404) = true
          · simp [get_repository_info, hl, h404] at hr
            subst hr
            simp
          · by_cases h : 400 ≤ st
            · simp [get_repository_info, hl, h404, h] at hr
              subst hr
              simp
            · simp [get_repository_info, hl, h404, h] at hr
              subst hr
              simp
  · intro fn dirs http readme v hv
    simp [get_repository_info, hv]

/-- Witness for the amended C6: a concrete cache hit with zero requests and a
concrete single-request language call. -/
theorem c6_amended_request_counts_witness :
    get_repository_info "owner/repo" hitDirs (.response 200 trivialRepoData) .raised
        = .ok ⟨.jsonDump (.obj [("name", .str "repo")]), 0⟩ ∧
      (get_repository_languages "o/r" (.response 200 [])).http_requests = 1 :=
  ⟨c6_amended_request_counts.2.2.2.2.2 "owner/repo" hitDirs (.response 200 trivialRepoData)
      .raised (.obj [("name", .str "repo")]) rfl,
    c6_amended_request_counts.2.1 "o/r" (.response 200 [])⟩
